import Mathlib

/-!
# Verification of the Song-Leader-Training pitch pipeline and grader

Shallow embedding of the repository's core signal/grading code:

* `src/src/audio/grader.js` — `gradePerformance` and its helpers;
* `src/public/pitch-processor.js` — the RMS gate hysteresis and the YIN
  fundamental-frequency estimator;
* `src/src/audio/pitch-engine.js` — the observation smoothing pipeline.

Machine floats are modelled by `ℚ`; the IEEE non-finite values that arise in
the YIN cumulative-mean normalization are modelled by `Option ℚ` with `none`
standing for NaN (all comparisons against `none` are false, as in JS).  The
two transcendental conversions `frequency ↦ 12·log₂(f/ref)+69` and its inverse
are modelled over `ℝ` (`freqToMidi`/`midiToFreq`); where the pipeline merely
transports such a converted value, the conversion is passed in as an opaque
function parameter `f2m`/`m2f` so that the surrounding integer/rational logic
stays executable.
-/

/-- JS `Math.round`: round half toward positive infinity, `⌊q + 1/2⌋`. -/
def jround (q : ℚ) : ℤ := ⌊q + 1/2⌋

/-! ## Grader data model (`src/src/audio/grader.js`) -/

/-- An entry of the detected-pitch history as consumed by the grader
(`{ timestamp, midi, midiRounded, frequency }`). -/
structure DetectedPitch where
  timestamp : ℚ
  midi : ℚ
  midiRounded : ℤ
  frequency : ℚ
deriving DecidableEq

/-- A reference-melody note `{ midi, dur, freq?, measure, lyric? }`. -/
structure RefNote where
  midi : ℚ
  dur : ℚ
  freq : Option ℚ
  measure : ℕ
  lyric : String
deriving DecidableEq

/-- An expected note with absolute timing, built by `buildExpectedTiming`. -/
structure ExpectedNote where
  index : ℕ
  midi : ℚ
  freq : ℚ
  expectedStart : ℚ
  expectedDuration : ℚ
  measure : ℕ
  lyric : String
deriving DecidableEq

/-- One per-expected-note result of `matchPitchesToNotes`.  In the
no-candidate branch the JS object simply lacks the flag fields; `undefined`
is falsy wherever they are read, so they are modelled as `false`/`none`. -/
structure MatchResult where
  expected : ExpectedNote
  matched : Bool
  centsOff : ℤ
  timingOffMs : ℤ
  detectedMidi : Option ℤ
  detectedFreq : Option ℚ
  isSharp : Bool
  isFlat : Bool
  isEarly : Bool
  isLate : Bool
deriving DecidableEq

/-- `summary` block of the grading report. -/
structure GradeSummary where
  totalNotes : ℕ
  matchedNotes : ℕ
  avgCentsOff : ℤ
  avgTimingOff : ℤ
deriving DecidableEq

/-- The full return value of `gradePerformance`. -/
structure GradeReport where
  pitchScore : ℤ
  rhythmScore : ℤ
  stabilityScore : ℤ
  leadershipScore : ℤ
  noteByNote : List MatchResult
  diagnostics : List String
  tempoData : List (ℕ × ℤ)
  pitchData : List (ℕ × ℤ × Bool × Bool)
  summary : GradeSummary
deriving DecidableEq

/-- `getEmptyResult` (grader.js lines 373-390). -/
def getEmptyResult : GradeReport :=
  { pitchScore := 0
    rhythmScore := 0
    stabilityScore := 0
    leadershipScore := 0
    noteByNote := []
    diagnostics := ["No performance data to analyze."]
    tempoData := []
    pitchData := []
    summary := { totalNotes := 0, matchedNotes := 0, avgCentsOff := 0, avgTimingOff := 0 } }

/-- The compound-meter test `beatUnit >= 8 && beatsPerMeasure > 3 &&
beatsPerMeasure % 3 === 0` (grader.js line 24). -/
def isCompound (beatsPerMeasure beatUnit : ℕ) : Bool :=
  decide (8 ≤ beatUnit) && decide (3 < beatsPerMeasure) && (beatsPerMeasure % 3 == 0)

/-- Milliseconds per duration unit, from BPM and meter (grader.js lines 24-35).
The three branches of the source (compound / half-note unit / default) are kept. -/
def msPerBeatUnitOf (beatsPerMeasure beatUnit : ℕ) (bpm : ℚ) : ℚ :=
  if isCompound beatsPerMeasure beatUnit then (60000 / bpm) / 3
  else if beatUnit == 2 then 60000 / bpm
  else 60000 / bpm

/-- Split a character list at `'/'`, as `String.prototype.split('/')` does. -/
def splitOnSlash : List Char → List (List Char)
  | [] => [[]]
  | c :: rest =>
    let r := splitOnSlash rest
    if c = '/' then [] :: r
    else
      match r with
      | [] => [[c]]
      | h :: t => (c :: h) :: t

/-- `Number(...)` on a split part, for the digit strings a meter contains.
A non-numeric part (JS `NaN`) is modelled as `none`; everywhere the parsed
meter is consumed (`isCompound`, the `beatUnit === 2` test) a `NaN` behaves
exactly like the default 0 (every comparison is false), so `getD 0` below is
extensionally faithful. -/
def parseNumber (cs : List Char) : Option ℕ :=
  if cs ≠ [] ∧ cs.all (·.isDigit) then
    some (cs.foldl (fun a c => a * 10 + (c.toNat - 48)) 0)
  else none

/-- `timeSignature.split('/').map(Number)` destructured to its first two
entries (grader.js line 20). -/
def parseTimeSignature (s : String) : ℕ × ℕ :=
  let parts := (splitOnSlash s.toList).map (fun cs => (parseNumber cs).getD 0)
  (parts.getD 0 0, parts.getD 1 0)

/-- `buildExpectedTiming` (grader.js lines 78-100).  `m2f` stands for the
transcendental `midiToFreq` used for the `freq` fallback. -/
def buildExpectedTiming (m2f : ℚ → ℚ) (melody : List RefNote) (msPerBeatUnit : ℚ) :
    List ExpectedNote :=
  (melody.foldl
    (fun (acc : List ExpectedNote × ℕ × ℚ) note =>
      let durationMs := note.dur * msPerBeatUnit
      (acc.1 ++ [{ index := acc.2.1
                   midi := note.midi
                   freq := note.freq.getD (m2f note.midi)
                   expectedStart := acc.2.2
                   expectedDuration := durationMs
                   measure := note.measure
                   lyric := note.lyric }],
        acc.2.1 + 1, acc.2.2 + durationMs))
    ([], 0, 0)).1

/-- The candidate filter of `matchPitchesToNotes` (grader.js lines 110-116):
detected pitches whose timestamp lies in `[start-200, start+duration+200]`. -/
def windowCandidates (detectedPitches : List DetectedPitch) (e : ExpectedNote) :
    List DetectedPitch :=
  detectedPitches.filter (fun p =>
    decide (e.expectedStart - 200 ≤ p.timestamp) &&
    decide (p.timestamp ≤ e.expectedStart + e.expectedDuration + 200))

/-- One step of the best-match loop of `matchPitchesToNotes` (grader.js lines
133-139); `none` models the initial `bestDistance = Infinity, bestMatch = null`
state, which any candidate beats. -/
def selectStep (expMidi : ℚ) (best : Option (ℚ × DetectedPitch)) (c : DetectedPitch) :
    Option (ℚ × DetectedPitch) :=
  match best with
  | none => some (|c.midi - expMidi|, c)
  | some (bd, bm) =>
      if |c.midi - expMidi| < bd then some (|c.midi - expMidi|, c) else some (bd, bm)

/-- The best-match loop of `matchPitchesToNotes` (grader.js lines 130-139):
starting from distance `Infinity`, keep the first candidate whose MIDI
distance is strictly smaller than the best so far. -/
def selectBest (candidates : List DetectedPitch) (expMidi : ℚ) :
    Option (ℚ × DetectedPitch) :=
  candidates.foldl (selectStep expMidi) none

/-- The per-window body of `matchPitchesToNotes` (grader.js lines 109-158). -/
def matchOne (detectedPitches : List DetectedPitch) (e : ExpectedNote) : MatchResult :=
  let candidates := windowCandidates detectedPitches e
  match selectBest candidates e.midi with
  | none =>
      { expected := e, matched := false, centsOff := 0, timingOffMs := 0,
        detectedMidi := none, detectedFreq := none,
        isSharp := false, isFlat := false, isEarly := false, isLate := false }
  | some (bestDistance, bestMatch) =>
      let matched := decide (bestDistance < 2)
      let centsOff : ℤ := if matched then jround ((bestMatch.midi - e.midi) * 100) else 0
      let timingOffMs : ℤ := if matched then jround (bestMatch.timestamp - e.expectedStart) else 0
      { expected := e, matched := matched, centsOff := centsOff, timingOffMs := timingOffMs,
        detectedMidi := some bestMatch.midiRounded,
        detectedFreq := some bestMatch.frequency,
        isSharp := decide (20 < centsOff), isFlat := decide (centsOff < -20),
        isEarly := decide (timingOffMs < -100), isLate := decide (100 < timingOffMs) }

/-- `matchPitchesToNotes` (grader.js lines 105-161). -/
def matchPitchesToNotes (detectedPitches : List DetectedPitch)
    (expectedNotes : List ExpectedNote) : List MatchResult :=
  expectedNotes.map (matchOne detectedPitches)

/-- `calculatePitchScore` (grader.js lines 166-183). -/
def calculatePitchScore (matchResults : List MatchResult) : ℚ :=
  if matchResults.length = 0 then 0 else
  let matched := matchResults.filter (·.matched)
  if matched.length = 0 then 0 else
  let hitRate : ℚ := (matched.length : ℚ) / (matchResults.length : ℚ)
  let avgCentsOff : ℚ := ((matched.map (fun r => |(r.centsOff : ℚ)|)).sum) / (matched.length : ℚ)
  let inTuneScore := max 0 (100 - avgCentsOff)
  hitRate * 50 + (inTuneScore / 100) * 50

/-- `calculateRhythmScore` (grader.js lines 188-205). -/
def calculateRhythmScore (matchResults : List MatchResult) : ℚ :=
  if matchResults.length = 0 then 0 else
  let matched := matchResults.filter (·.matched)
  if matched.length = 0 then 0 else
  let hitRate : ℚ := (matched.length : ℚ) / (matchResults.length : ℚ)
  let avgTimingOff : ℚ :=
    ((matched.map (fun r => |(r.timingOffMs : ℚ)|)).sum) / (matched.length : ℚ)
  let timingScore := max 0 (100 - avgTimingOff / 3)
  hitRate * 40 + (timingScore / 100) * 60

/-- `calculateVariance` (grader.js lines 357-361). -/
def calculateVariance (arr : List ℚ) : ℚ :=
  if arr.length = 0 then 0 else
  let mean := arr.sum / (arr.length : ℚ)
  ((arr.map (fun v => (v - mean) ^ 2)).sum) / (arr.length : ℚ)

/-- `calculateStabilityScore` (grader.js lines 210-228). -/
def calculateStabilityScore (detectedPitches : List DetectedPitch)
    (matchResults : List MatchResult) : ℚ :=
  if detectedPitches.length < 10 then 70 else
  let matched := matchResults.filter (·.matched)
  if matched.length < 3 then 50 else
  let centsVariance := calculateVariance (matched.map (fun r => (r.centsOff : ℚ)))
  let pitchStability := max 0 (100 - centsVariance / 2)
  let timingVariance := calculateVariance (matched.map (fun r => (r.timingOffMs : ℚ)))
  let tempoStability := max 0 (100 - timingVariance / 50)
  (pitchStability + tempoStability) / 2

/-- `generateDiagnostics` (grader.js lines 233-303).  The pushes are modelled
by list concatenation in source order. -/
def generateDiagnostics (matchResults : List MatchResult)
    (_detectedPitches : List DetectedPitch) (_expectedNotes : List ExpectedNote) :
    List String :=
  let matched := matchResults.filter (·.matched)
  if matchResults.length = 0 ∨ matched.length = 0 then
    ["No pitch data detected. Make sure your microphone is working and sing clearly."]
  else
    let hitRate : ℚ := (matched.length : ℚ) / (matchResults.length : ℚ)
    let d1 : List String :=
      if hitRate < 1/2 then
        ["Many notes were missed or significantly off-pitch. Try singing more slowly and deliberately."]
      else if hitRate < 4/5 then
        ["Some notes need work. Focus on the highlighted problem areas."]
      else []
    let sharpCount := (matched.filter (·.isSharp)).length
    let flatCount := (matched.filter (·.isFlat)).length
    let d2 : List String :=
      if (sharpCount : ℚ) > (matched.length : ℚ) * (2/5) then
        ["Tendency to sing sharp. Try relaxing and aiming slightly lower."]
      else if (flatCount : ℚ) > (matched.length : ℚ) * (2/5) then
        ["Tendency to sing flat. Support your breath and aim slightly higher."]
      else []
    let earlyCount := (matched.filter (·.isEarly)).length
    let lateCount := (matched.filter (·.isLate)).length
    let d3 : List String :=
      if (earlyCount : ℚ) > (matched.length : ℚ) * (2/5) then
        ["Rushing the tempo. Listen to the beat and hold back slightly."]
      else if (lateCount : ℚ) > (matched.length : ℚ) * (2/5) then
        ["Dragging behind the beat. Anticipate each note more."]
      else []
    let firstHalf := matched.take (matched.length / 2)
    let secondHalf := matched.drop (matched.length / 2)
    let d4 : List String :=
      if firstHalf.length ≠ 0 ∧ secondHalf.length ≠ 0 then
        let fCents := ((firstHalf.map (fun r => (r.centsOff : ℚ))).sum) / (firstHalf.length : ℚ)
        let sCents := ((secondHalf.map (fun r => (r.centsOff : ℚ))).sum) / (secondHalf.length : ℚ)
        let fTiming :=
          ((firstHalf.map (fun r => (r.timingOffMs : ℚ))).sum) / (firstHalf.length : ℚ)
        let sTiming :=
          ((secondHalf.map (fun r => (r.timingOffMs : ℚ))).sum) / (secondHalf.length : ℚ)
        (if sCents - fCents > 15 then
          ["Pitch drifts sharp toward the end. Maintain breath support throughout."]
         else if fCents - sCents > 15 then
          ["Pitch drifts flat toward the end. Keep energy and support consistent."]
         else []) ++
        (if sTiming - fTiming > 50 then
          ["Tempo slows down toward the end. Maintain steady pulse throughout."]
         else if fTiming - sTiming > 50 then
          ["Tempo speeds up toward the end. Stay steady and controlled."]
         else [])
      else []
    let base := d1 ++ d2 ++ d3 ++ d4
    if base.length = 0 then
      if hitRate > 9/10 then ["Excellent accuracy! Pitch and timing are very solid."]
      else ["Good performance. Keep practicing for even more consistency."]
    else base

/-- `buildTempoData` (grader.js lines 308-340).  JS groups matched results in
an object keyed by measure and finally sorts by measure number; measures are
unique keys, so the sorted output is order-independent of the grouping. -/
def buildTempoData (matchResults : List MatchResult) (targetBpm : ℚ) : List (ℕ × ℤ) :=
  let matched := matchResults.filter (·.matched)
  let measures := (matched.map (fun r => r.expected.measure)).dedup
  let data := measures.filterMap (fun m =>
    let notes := matched.filter (fun r => r.expected.measure == m)
    if notes.length < 2 then none
    else
      let avgOffset := ((notes.map (fun n => (n.timingOffMs : ℚ))).sum) / (notes.length : ℚ)
      some (m + 1, jround (targetBpm + (-avgOffset / 50))))
  data.insertionSort (fun a b => a.1 ≤ b.1)

/-- `buildPitchData` (grader.js lines 345-352). -/
def buildPitchData (matchResults : List MatchResult) : List (ℕ × ℤ × Bool × Bool) :=
  matchResults.enum.map (fun p => (p.1 + 1, p.2.centsOff, p.2.isSharp, p.2.isFlat))

/-- `gradePerformance` (grader.js lines 14-73), with the time signature already
parsed to a `(beatsPerMeasure, beatUnit)` pair and the transcendental
`midiToFreq` passed in as `m2f`. -/
def gradePerformance (m2f : ℚ → ℚ) (detectedPitches : List DetectedPitch)
    (referenceMelody : List RefNote) (bpm : ℚ) (timeSignature : ℕ × ℕ) : GradeReport :=
  if detectedPitches.length = 0 ∨ referenceMelody.length = 0 then getEmptyResult
  else
    let msPerBeatUnit := msPerBeatUnitOf timeSignature.1 timeSignature.2 bpm
    let expectedNotes := buildExpectedTiming m2f referenceMelody msPerBeatUnit
    let matchResults := matchPitchesToNotes detectedPitches expectedNotes
    let pitchScore := calculatePitchScore matchResults
    let rhythmScore := calculateRhythmScore matchResults
    let stabilityScore := calculateStabilityScore detectedPitches matchResults
    let diagnostics := generateDiagnostics matchResults detectedPitches expectedNotes
    let tempoData := buildTempoData matchResults bpm
    let pitchData := buildPitchData matchResults
    let matchedR := matchResults.filter (·.matched)
    { pitchScore := jround pitchScore
      rhythmScore := jround rhythmScore
      stabilityScore := jround stabilityScore
      leadershipScore :=
        jround (pitchScore * (3/10) + rhythmScore * (2/5) + stabilityScore * (3/10))
      noteByNote := matchResults
      diagnostics := diagnostics
      tempoData := tempoData
      pitchData := pitchData
      summary :=
        { totalNotes := referenceMelody.length
          matchedNotes := matchedR.length
          avgCentsOff :=
            jround (((matchedR.map (fun r => |(r.centsOff : ℚ)|)).sum) /
              (max 1 matchedR.length : ℕ))
          avgTimingOff :=
            jround (((matchedR.map (fun r => |(r.timingOffMs : ℚ)|)).sum) /
              (max 1 matchedR.length : ℕ)) } }

/-- `gradePerformance` on a raw `"N/D"` time-signature string. -/
def gradePerformanceStr (m2f : ℚ → ℚ) (detectedPitches : List DetectedPitch)
    (referenceMelody : List RefNote) (bpm : ℚ) (timeSignature : String) : GradeReport :=
  gradePerformance m2f detectedPitches referenceMelody bpm (parseTimeSignature timeSignature)

/-! ## RMS gate hysteresis (`src/public/pitch-processor.js` lines 236-249)

A frame strictly above `voiceThreshold` bumps the above-counter (and zeroes the
below-counter); a frame strictly below `silenceThreshold` bumps the
below-counter (and zeroes the above-counter); a frame in between changes
nothing.  The gate opens at 3 above-frames and closes at 5 below-frames. -/

/-- Hysteresis counters and the gate flag. -/
structure GateState where
  framesAboveThreshold : ℕ
  framesBelowThreshold : ℕ
  gateOpen : Bool
deriving DecidableEq

/-- One frame of the gate-hysteresis block (pitch-processor.js lines 237-249). -/
def gateStep (voiceThreshold silenceThreshold : ℚ) (st : GateState) (rmsDb : ℚ) :
    GateState :=
  if voiceThreshold < rmsDb then
    let fa := st.framesAboveThreshold + 1
    { framesAboveThreshold := fa, framesBelowThreshold := 0,
      gateOpen := if 3 ≤ fa then true else st.gateOpen }
  else if rmsDb < silenceThreshold then
    let fb := st.framesBelowThreshold + 1
    { framesAboveThreshold := 0, framesBelowThreshold := fb,
      gateOpen := if 5 ≤ fb then false else st.gateOpen }
  else st

/-- Fold `gateStep` over a sequence of per-frame RMS-dB values. -/
def gateRun (voiceThreshold silenceThreshold : ℚ) (st : GateState) (frames : List ℚ) :
    GateState :=
  frames.foldl (gateStep voiceThreshold silenceThreshold) st

/-! ## YIN estimator (`src/public/pitch-processor.js` lines 276-347)

Samples are rationals; the entries of the cumulative-mean-normalized
difference buffer are `Option ℚ`, with `none` standing for the IEEE NaN that
the JS code produces at a zero running sum (the difference function is a sum
of squares, so a zero running sum forces `d[τ] = 0` and the JS value is
`0 * (τ/0) = 0 * ∞ = NaN`).  As in JS, every comparison against a NaN is
false. -/

/-- YIN configuration: `sampleRate`, frequency range and threshold. -/
structure YinConfig where
  sampleRate : ℚ
  minFreq : ℚ
  maxFreq : ℚ
  threshold : ℚ
deriving DecidableEq

/-- The worklet's defaults (pitch-processor.js lines 19, 32, 35-36). -/
def defaultYinConfig : YinConfig :=
  { sampleRate := 44100, minFreq := 65, maxFreq := 1100, threshold := 12/100 }

/-- `a < b` for a possibly-NaN left operand (false on NaN, as in JS). -/
def nanLtQ (a : Option ℚ) (b : ℚ) : Bool :=
  match a with
  | some x => decide (x < b)
  | none => false

/-- `a < b` for two possibly-NaN operands (false if either is NaN). -/
def nanLt (a b : Option ℚ) : Bool :=
  match a, b with
  | some x, some y => decide (x < y)
  | _, _ => false

/-- Read the input frame, 0 out of range (indices stay in range in the
algorithm, since it only reads `i + τ < 2·halfSize ≤ length`). -/
def sampleAt (buf : List ℚ) (i : ℕ) : ℚ := buf.getD i 0

/-- YIN steps 1-2, the difference function at lag `τ`
(pitch-processor.js lines 280-286). -/
def diffAt (buf : List ℚ) (halfSize tau : ℕ) : ℚ :=
  ((List.range halfSize).map (fun i => (sampleAt buf i - sampleAt buf (i + tau)) ^ 2)).sum

/-- The running sum `Σ_{t=1}^{τ} d[t]` of the normalization loop
(pitch-processor.js lines 290-294). -/
def runningSum (buf : List ℚ) (halfSize tau : ℕ) : ℚ :=
  ((List.range tau).map (fun t => diffAt buf halfSize (t + 1))).sum

/-- YIN step 3, the cumulative-mean-normalized difference buffer entry at `τ`
(pitch-processor.js lines 289-294): `d'[0] = 1`, `d'[τ] = d[τ]·τ / Σd[1..τ]`;
`none` models the NaN arising at a zero running sum. -/
def cmnd (buf : List ℚ) (halfSize tau : ℕ) : Option ℚ :=
  if tau = 0 then some 1
  else if runningSum buf halfSize tau = 0 then none
  else some (diffAt buf halfSize tau * tau / runningSum buf halfSize tau)

/-- YIN step 4's scan (pitch-processor.js lines 301-314): the first
`τ ∈ [max(2, minTau), min(halfSize, maxTau))` whose normalized value is below
the threshold. -/
def findCandidate (buf : List ℚ) (halfSize : ℕ) (cfg : YinConfig) : Option ℕ :=
  let minTau := (⌊cfg.sampleRate / cfg.maxFreq⌋).toNat
  let maxTau := (⌊cfg.sampleRate / cfg.minFreq⌋).toNat
  let start := max 2 minTau
  let bound := min halfSize maxTau
  (List.range' start (bound - start)).find?
    (fun t => nanLtQ (cmnd buf halfSize t) cfg.threshold)

/-- The local-minimum walk of YIN step 4 (pitch-processor.js lines 307-309):
advance while the next entry is strictly smaller; a step count of `halfSize`
always suffices since `τ` stays below `halfSize`. -/
def walkToMin (buf : List ℚ) (halfSize : ℕ) : ℕ → ℕ → ℕ
  | 0, tau => tau
  | fuel + 1, tau =>
    if decide (tau + 1 < halfSize) &&
        nanLt (cmnd buf halfSize (tau + 1)) (cmnd buf halfSize tau) then
      walkToMin buf halfSize fuel (tau + 1)
    else tau

/-- YIN step 5 (pitch-processor.js lines 321-334): parabolic interpolation.
If a neighbor entry is NaN the JS `denominator` is NaN, `NaN !== 0` holds, the
adjustment is NaN and `|NaN| < 1` is false, so the unrefined lag is kept. -/
def refineTau (buf : List ℚ) (halfSize foundTau : ℕ) : ℚ :=
  if 0 < foundTau ∧ foundTau + 1 < halfSize then
    match cmnd buf halfSize (foundTau - 1), cmnd buf halfSize foundTau,
        cmnd buf halfSize (foundTau + 1) with
    | some s0, some s1, some s2 =>
      let denom := 2 * s1 - s0 - s2
      if denom ≠ 0 then
        let adjustment := (s2 - s0) / (2 * denom)
        if |adjustment| < 1 then (foundTau : ℚ) + adjustment else (foundTau : ℚ)
      else (foundTau : ℚ)
    | _, _, _ => (foundTau : ℚ)
  else (foundTau : ℚ)

/-- YIN step 7 (pitch-processor.js lines 342-346): the final range check. -/
def rangeCheck (cfg : YinConfig) (frequency confidence : ℚ) : ℚ × ℚ :=
  if frequency < cfg.minFreq ∨ cfg.maxFreq < frequency then (-1, 0)
  else (frequency, confidence)

/-- `PitchProcessor.yinDetect` (pitch-processor.js lines 276-347), returning
`(frequency, confidence)` with the sentinel `(-1, 0)` for "no pitch".  The
walked-to entry is provably finite (the walk only moves under a true
comparison), so `getD 0` in the confidence never actually fires. -/
def yinDetect (cfg : YinConfig) (buf : List ℚ) : ℚ × ℚ :=
  let halfSize := buf.length / 2
  match findCandidate buf halfSize cfg with
  | none => (-1, 0)
  | some t0 =>
    let foundTau := walkToMin buf halfSize halfSize t0
    let betterTau := refineTau buf halfSize foundTau
    let frequency := cfg.sampleRate / betterTau
    let confidence := 1 - (cmnd buf halfSize foundTau).getD 0
    rangeCheck cfg frequency confidence

/-! ## Observation smoothing pipeline (`src/src/audio/pitch-engine.js`)

The transcendental conversions of lines 384 and 463 (`12·log₂(f/ref)+69` and
`ref·2^((m-69)/12)`) are passed in as function parameters `f2m` and `m2f`; the
real-valued versions are `freqToMidi`/`midiToFreq` below.  The observation's
`frequency` field always equals `m2f` of its `midi` field, so it is not
duplicated in the `Obs` structure; `smoothedFreq` is kept in the state. -/

/-- A smoothed observation as pushed to `pitchHistory` / `onPitch`
(pitch-engine.js lines 369-379 and 479-492). -/
structure Obs where
  timestamp : ℚ
  midi : Option ℚ
  midiRounded : Option ℤ
  noteName : Option String
  cents : ℤ
  level : ℚ
  confidence : ℚ
  stable : Bool
  gateOpen : Bool
  rawMidi : Option ℚ
deriving DecidableEq

/-- A raw pitch frame as received from the worklet (pitch-engine.js line 357). -/
structure PitchInput where
  frequency : ℚ
  confidence : ℚ
  rms : ℚ
  rmsDb : ℚ
  gateOpen : Bool
  timestamp : ℚ
deriving DecidableEq

/-- The smoothing state owned by `PitchEngine` (pitch-engine.js lines 37-66). -/
structure EngineState where
  smoothingAlpha : ℚ
  outlierBuffer : List ℚ
  suspectFrames : ℕ
  suspectPitch : Option ℚ
  medianBuffer : List ℚ
  smoothedMidi : Option ℚ
  smoothedFreq : Option ℚ
  lastRmsDb : ℚ
  lastRawMidi : Option ℚ
  onsetCooldown : ℕ
  noteHoldCount : ℕ
  lastNoteName : Option String
  lastOutput : Option Obs
  pitchHistory : List Obs
deriving DecidableEq

/-- `_getAlphaForMode` (pitch-engine.js lines 76-83). -/
def getAlphaForMode (mode : String) : ℚ :=
  if mode = "beginner" then 15/100
  else if mode = "standard" then 25/100
  else if mode = "advanced" then 40/100
  else 25/100

/-- The initial smoothing state for a given sensitivity mode
(pitch-engine.js constructor and `start()`). -/
def engineInit (mode : String) : EngineState :=
  { smoothingAlpha := getAlphaForMode mode
    outlierBuffer := []
    suspectFrames := 0
    suspectPitch := none
    medianBuffer := []
    smoothedMidi := none
    smoothedFreq := none
    lastRmsDb := -100
    lastRawMidi := none
    onsetCooldown := 0
    noteHoldCount := 0
    lastNoteName := none
    lastOutput := none
    pitchHistory := [] }

/-- `sorted[Math.floor(sorted.length / 2)]` on an ascending numeric sort, as
used for both the outlier median and the median filter (pitch-engine.js lines
389-390 and 452-453). -/
def jsMedian (l : List ℚ) : ℚ :=
  (l.insertionSort (· ≤ ·)).getD (l.length / 2) 0

/-- The suspect-tracking update (pitch-engine.js lines 395-400): a new suspect
(no current suspect, or farther than 1 semitone from it) restarts the count at
1; a repeat increments it. -/
def suspectUpdate (suspectPitch : Option ℚ) (suspectFrames : ℕ) (rawMidi : ℚ) :
    Option ℚ × ℕ :=
  match suspectPitch with
  | none => (some rawMidi, 1)
  | some p => if 1 < |rawMidi - p| then (some rawMidi, 1) else (some p, suspectFrames + 1)

/-- The note-name table (pitch-engine.js line 467); the sharp names are
spelled by concatenation. -/
def noteNames : List String :=
  ["C", "C" ++ "#", "D", "D" ++ "#", "E", "F", "F" ++ "#", "G",
    "G" ++ "#", "A", "A" ++ "#", "B"]

/-- `noteNames[((n % 12) + 12) % 12] + (Math.floor(n / 12) - 1)`
(pitch-engine.js line 468); JS's double remainder equals the mathematical
`n % 12`, and `Math.floor` division is `Int.fdiv`. -/
def noteNameOf (noteNumber : ℤ) : String :=
  noteNames.getD (noteNumber % 12).toNat ("") ++ toString (noteNumber.fdiv 12 - 1)

/-- `Math.round((smoothedMidi - noteNumber) * 100)` with
`noteNumber = Math.round(smoothedMidi)` (pitch-engine.js lines 466, 469). -/
def musicalCents (q : ℚ) : ℤ := jround ((q - (jround q : ℚ)) * 100)

/-- The null observation of the no-pitch path (pitch-engine.js lines 369-379). -/
def nullObs (d : PitchInput) : Obs :=
  { timestamp := d.timestamp, midi := none, midiRounded := none, noteName := none,
    cents := 0, level := d.rms, confidence := 0, stable := false, gateOpen := false,
    rawMidi := none }

/-- The main (pitch-accepted) path of `_processPitchData`
(pitch-engine.js lines 411-499), entered with the post-outlier-check suspect
state `(sp, sf)`; returns the new state and the emitted observation. -/
def mainEmit (m2f : ℚ → ℚ) (st : EngineState) (d : PitchInput) (rawMidi : ℚ)
    (sp : Option ℚ) (sf : ℕ) : EngineState × Obs :=
  let outlierBuffer1 :=
    let ob := st.outlierBuffer ++ [rawMidi]
    if 7 < ob.length then ob.tail else ob
  let suspectConfirmed := decide (2 ≤ sf)
  let isOnset := decide (6 < d.rmsDb - st.lastRmsDb) || suspectConfirmed
  let sp2 := if suspectConfirmed then none else sp
  let sf2 := if suspectConfirmed then 0 else sf
  let (smoothedMidi1, _smoothedFreq1, medianBuffer1, onsetCooldown1) :=
    if isOnset && decide (st.onsetCooldown = 0) then
      (some rawMidi, some d.frequency, [rawMidi], 3)
    else if 0 < st.onsetCooldown then
      (st.smoothedMidi, st.smoothedFreq, st.medianBuffer, st.onsetCooldown - 1)
    else
      (st.smoothedMidi, st.smoothedFreq, st.medianBuffer, st.onsetCooldown)
  let medianBuffer2 :=
    let mb := medianBuffer1 ++ [rawMidi]
    if 5 < mb.length then mb.tail else mb
  let medianMidi := jsMedian medianBuffer2
  let smoothedMidi2 : ℚ :=
    match smoothedMidi1 with
    | none => medianMidi
    | some s => st.smoothingAlpha * medianMidi + (1 - st.smoothingAlpha) * s
  let smoothedFreq2 := m2f smoothedMidi2
  let noteNumber := jround smoothedMidi2
  let noteName := noteNameOf noteNumber
  let noteHoldCount1 := if st.lastNoteName = some noteName then st.noteHoldCount + 1 else 1
  let output : Obs :=
    { timestamp := d.timestamp, midi := some smoothedMidi2, midiRounded := some noteNumber,
      noteName := some noteName, cents := musicalCents smoothedMidi2,
      level := d.rms, confidence := d.confidence, stable := decide (6 < noteHoldCount1),
      gateOpen := true, rawMidi := some rawMidi }
  ({ st with
      outlierBuffer := outlierBuffer1
      suspectFrames := sf2
      suspectPitch := sp2
      medianBuffer := medianBuffer2
      smoothedMidi := some smoothedMidi2
      smoothedFreq := some smoothedFreq2
      lastRmsDb := d.rmsDb
      lastRawMidi := some rawMidi
      onsetCooldown := onsetCooldown1
      noteHoldCount := noteHoldCount1
      lastNoteName := some noteName
      lastOutput := some output
      pitchHistory := st.pitchHistory ++ [output] },
    output)

/-- `PitchEngine._processPitchData` (pitch-engine.js lines 354-500).  The
second component is the observation handed to `onPitch`: `none` when the frame
is discarded by the outlier rejection (the JS early `return`, after which the
previous output stands).  The `_smoothedFreq` written by the onset branch is
dead in the source too: line 463 overwrites it before any read. -/
def processPitchData (f2m m2f : ℚ → ℚ) (st : EngineState) (d : PitchInput) :
    EngineState × Option Obs :=
  if d.frequency ≤ 0 ∨ d.gateOpen = false then
    ({ st with
        medianBuffer := st.medianBuffer.tail
        outlierBuffer := st.outlierBuffer.tail
        noteHoldCount := 0
        suspectFrames := 0
        suspectPitch := none }, some (nullObs d))
  else
    let rawMidi := f2m d.frequency
    if 3 ≤ st.outlierBuffer.length ∧ 200 < |rawMidi - jsMedian st.outlierBuffer| * 100 then
      let susp := suspectUpdate st.suspectPitch st.suspectFrames rawMidi
      if susp.2 < 2 then
        ({ st with suspectPitch := susp.1, suspectFrames := susp.2 }, none)
      else
        let r := mainEmit m2f st d rawMidi susp.1 susp.2
        (r.1, some r.2)
    else
      let r := mainEmit m2f st d rawMidi st.suspectPitch st.suspectFrames
      (r.1, some r.2)

/-! ## Real-valued frequency/MIDI conversions (`pitch-engine.js` lines 384, 463) -/

/-- `12 * Math.log2(frequency / referencePitch) + 69` (pitch-engine.js
line 384), over `ℝ`. -/
noncomputable def freqToMidi (referencePitch f : ℝ) : ℝ :=
  12 * Real.logb 2 (f / referencePitch) + 69

/-- `referencePitch * Math.pow(2, (midi - 69) / 12)` (pitch-engine.js
line 463 and grader.js line 367), over `ℝ`. -/
noncomputable def midiToFreq (referencePitch m : ℝ) : ℝ :=
  referencePitch * (2 : ℝ) ^ ((m - 69) / 12)

/-! ## Helper lemmas -/

/-- Invariant of the best-match fold: starting from an accumulator whose
distance matches its candidate, the fold returns a candidate drawn from the
accumulator or the list, whose distance is minimal. -/
lemma selectStep_foldl_min (em : ℚ) (l : List DetectedPitch) :
    ∀ (bd : ℚ) (bm : DetectedPitch), bd = |bm.midi - em| →
      ∃ bd' bm', l.foldl (selectStep em) (some (bd, bm)) = some (bd', bm') ∧
        bd' = |bm'.midi - em| ∧ (bm' = bm ∨ bm' ∈ l) ∧ bd' ≤ bd ∧
        ∀ c ∈ l, bd' ≤ |c.midi - em| := by
  induction l with
  | nil =>
    intro bd bm hbd
    exact ⟨bd, bm, rfl, hbd, Or.inl rfl, le_refl _, by simp⟩
  | cons c t ih =>
    intro bd bm hbd
    simp only [List.foldl_cons, selectStep]
    by_cases h : |c.midi - em| < bd
    · rw [if_pos h]
      obtain ⟨bd', bm', h1, h2, h3, h4, h5⟩ := ih _ c rfl
      refine ⟨bd', bm', h1, h2, ?_, le_trans h4 (le_of_lt h), ?_⟩
      · rcases h3 with h3 | h3
        · exact Or.inr (by simp [h3])
        · exact Or.inr (List.mem_cons_of_mem _ h3)
      · intro q hq
        rcases List.mem_cons.mp hq with rfl | hq
        · exact h4
        · exact h5 _ hq
    · rw [if_neg h]
      obtain ⟨bd', bm', h1, h2, h3, h4, h5⟩ := ih bd bm hbd
      refine ⟨bd', bm', h1, h2, ?_, h4, ?_⟩
      · rcases h3 with h3 | h3
        · exact Or.inl h3
        · exact Or.inr (List.mem_cons_of_mem _ h3)
      · intro q hq
        rcases List.mem_cons.mp hq with rfl | hq
        · exact le_trans h4 (not_lt.mp h)
        · exact h5 _ hq

/-- `selectBest` returns `none` exactly on an empty candidate list, and
otherwise a member of the list at minimal MIDI distance. -/
lemma selectBest_spec (candidates : List DetectedPitch) (em : ℚ) :
    (candidates = [] ∧ selectBest candidates em = none) ∨
    ∃ bd bm, selectBest candidates em = some (bd, bm) ∧ bd = |bm.midi - em| ∧
      bm ∈ candidates ∧ ∀ c ∈ candidates, bd ≤ |c.midi - em| := by
  cases candidates with
  | nil => exact Or.inl ⟨rfl, rfl⟩
  | cons c t =>
    right
    unfold selectBest
    simp only [List.foldl_cons, selectStep]
    obtain ⟨bd', bm', h1, h2, h3, h4, h5⟩ := selectStep_foldl_min em t |c.midi - em| c rfl
    refine ⟨bd', bm', h1, h2, ?_, ?_⟩
    · rcases h3 with h3 | h3
      · simp [h3]
      · exact List.mem_cons_of_mem _ h3
    · intro q hq
      rcases List.mem_cons.mp hq with rfl | hq
      · exact h4
      · exact h5 _ hq

/-- Filtering the window candidates twice changes nothing. -/
lemma windowCandidates_idem (detectedPitches : List DetectedPitch) (e : ExpectedNote) :
    windowCandidates (windowCandidates detectedPitches e) e =
      windowCandidates detectedPitches e := by
  unfold windowCandidates
  apply List.filter_eq_self.mpr
  intro p hp
  exact (List.mem_filter.mp hp).2

/-! ## Claim theorems: the grader -/

/-- C8.  `gradePerformance` with an empty pitch history or empty reference
melody returns the zero report with exactly one explanatory diagnostic (it
never throws: the embedding is a total function). -/
theorem grade_empty_inputs_zero_report (m2f : ℚ → ℚ)
    (detectedPitches : List DetectedPitch) (referenceMelody : List RefNote)
    (bpm : ℚ) (timeSignature : ℕ × ℕ)
    (h : detectedPitches = [] ∨ referenceMelody = []) :
    (gradePerformance m2f detectedPitches referenceMelody bpm timeSignature).pitchScore = 0 ∧
    (gradePerformance m2f detectedPitches referenceMelody bpm timeSignature).rhythmScore = 0 ∧
    (gradePerformance m2f detectedPitches referenceMelody bpm
      timeSignature).stabilityScore = 0 ∧
    (gradePerformance m2f detectedPitches referenceMelody bpm
      timeSignature).leadershipScore = 0 ∧
    (gradePerformance m2f detectedPitches referenceMelody bpm
      timeSignature).diagnostics.length = 1 := by
  have hlen : detectedPitches.length = 0 ∨ referenceMelody.length = 0 := by
    rcases h with h | h <;> simp [h]
  unfold gradePerformance
  rw [if_pos hlen]
  exact ⟨rfl, rfl, rfl, rfl, rfl⟩

/-- Witness for `grade_empty_inputs_zero_report` at an empty history and a
one-note melody. -/
theorem grade_empty_inputs_zero_report_witness :
    (([] : List DetectedPitch) = [] ∨ ([⟨60, 4, none, 0, ""⟩] : List RefNote) = []) ∧
    ((gradePerformance (fun _ => 0) [] [⟨60, 4, none, 0, ""⟩] 80 (4, 4)).pitchScore = 0 ∧
     (gradePerformance (fun _ => 0) [] [⟨60, 4, none, 0, ""⟩] 80 (4, 4)).rhythmScore = 0 ∧
     (gradePerformance (fun _ => 0) [] [⟨60, 4, none, 0, ""⟩] 80 (4, 4)).stabilityScore = 0 ∧
     (gradePerformance (fun _ => 0) [] [⟨60, 4, none, 0, ""⟩] 80 (4, 4)).leadershipScore = 0 ∧
     (gradePerformance (fun _ => 0) [] [⟨60, 4, none, 0, ""⟩] 80 (4, 4)).diagnostics.length
       = 1) :=
  ⟨Or.inl rfl,
   grade_empty_inputs_zero_report (fun _ => 0) [] [⟨60, 4, none, 0, ""⟩] 80 (4, 4)
     (Or.inl rfl)⟩

/-- C4.  The grader's milliseconds-per-duration-unit: `(60000/bpm)/3` exactly
when the meter is compound (`unit ≥ 8`, `beats > 3`, `beats % 3 = 0`) and
`60000/bpm` otherwise — in particular for both half-note and quarter-note
units — and for the string `"6/8"` at 90 BPM it is `(60000/90)/3`. -/
theorem msPerBeatUnit_spec :
    (∀ (beats unit : ℕ) (bpm : ℚ),
        msPerBeatUnitOf beats unit bpm =
          if 8 ≤ unit ∧ 3 < beats ∧ beats % 3 = 0 then (60000 / bpm) / 3
          else 60000 / bpm) ∧
    parseTimeSignature ("6/8") = (6, 8) ∧
    msPerBeatUnitOf 6 8 90 = (60000 / 90) / 3 := by
  refine ⟨fun beats unit bpm => ?_, by decide, by norm_num [msPerBeatUnitOf, isCompound]⟩
  have hiff : isCompound beats unit = true ↔ 8 ≤ unit ∧ 3 < beats ∧ beats % 3 = 0 := by
    simp [isCompound, and_assoc]
  by_cases h : 8 ≤ unit ∧ 3 < beats ∧ beats % 3 = 0
  · rw [msPerBeatUnitOf, if_pos (hiff.mpr h), if_pos h]
  · rw [msPerBeatUnitOf, if_neg (fun hx => h (hiff.mp hx)), if_neg h, ite_self]

/-- C5.  For every expected-note window the grader considers exactly the
observations with timestamp in `[start-200, start+duration+200]`, selects a
closest-MIDI one among them, accepts it only if strictly within 2 semitones,
and gives unmatched windows zero `centsOff` and `timingOffMs`. -/
theorem matchOne_window_closest_spec (detectedPitches : List DetectedPitch)
    (e : ExpectedNote) :
    windowCandidates detectedPitches e = detectedPitches.filter (fun p =>
        decide (e.expectedStart - 200 ≤ p.timestamp) &&
        decide (p.timestamp ≤ e.expectedStart + e.expectedDuration + 200)) ∧
    matchOne detectedPitches e = matchOne (windowCandidates detectedPitches e) e ∧
    ((matchOne detectedPitches e).matched = true →
      ∃ p ∈ windowCandidates detectedPitches e,
        |p.midi - e.midi| < 2 ∧
        (matchOne detectedPitches e).detectedMidi = some p.midiRounded ∧
        (matchOne detectedPitches e).centsOff = jround ((p.midi - e.midi) * 100) ∧
        (matchOne detectedPitches e).timingOffMs = jround (p.timestamp - e.expectedStart) ∧
        ∀ q ∈ windowCandidates detectedPitches e, |p.midi - e.midi| ≤ |q.midi - e.midi|) ∧
    ((matchOne detectedPitches e).matched = false →
      (matchOne detectedPitches e).centsOff = 0 ∧
      (matchOne detectedPitches e).timingOffMs = 0) := by
  refine ⟨rfl, ?_, ?_, ?_⟩
  · simp only [matchOne, windowCandidates_idem]
  · intro hm
    rcases selectBest_spec (windowCandidates detectedPitches e) e.midi with
      ⟨hnil, hsel⟩ | ⟨bd, bm, hsel, hbd, hmem, hmin⟩
    · simp only [matchOne, hsel] at hm
      simp at hm
    · simp only [matchOne, hsel] at hm ⊢
      have hbd2 : bd < 2 := by simpa using hm
      refine ⟨bm, hmem, hbd ▸ hbd2, rfl, ?_, ?_, ?_⟩
      · simp [hbd2]
      · simp [hbd2]
      · intro q hq
        exact hbd ▸ hmin q hq
  · intro hm
    rcases selectBest_spec (windowCandidates detectedPitches e) e.midi with
      ⟨hnil, hsel⟩ | ⟨bd, bm, hsel, hbd, hmem, hmin⟩
    · simp [matchOne, hsel]
    · simp only [matchOne, hsel] at hm ⊢
      have hbd2 : ¬ bd < 2 := by simpa using hm
      exact ⟨by simp [hbd2], by simp [hbd2]⟩

section

set_option allowUnsafeReducibility true

attribute [local semireducible] Rat.add Rat.mul Rat.inv Rat.sub Rat.ofScientific

/-- C1 counterexample.  For the single-note scenario of the claim (reference
melody `midi=60, dur=4` at 80 BPM in 4/4; one observation `midi=60` at
`timestamp=0`) the code's leadership score is 91, not the claimed 100: with a
single observation `calculateStabilityScore` takes its fewer-than-10-samples
branch and returns 70, so `leadership = round(100·0.3 + 100·0.4 + 70·0.3) = 91`. -/
theorem grader_single_note_counterexample :
    (gradePerformanceStr (fun _ => 0) [⟨0, 60, 60, 26163/100⟩] [⟨60, 4, none, 0, ""⟩] 80
      ("4/4")).leadershipScore = 91 ∧
    ¬ (gradePerformanceStr (fun _ => 0) [⟨0, 60, 60, 26163/100⟩] [⟨60, 4, none, 0, ""⟩] 80
      ("4/4")).leadershipScore = 100 := by
  constructor <;> decide

/-- C1 amended.  Same scenario: `pitchScore = 100`, `rhythmScore = 100`, a
single positive diagnostic and `summary.matchedNotes = 1` as claimed, but
`stabilityScore = 70` (fewer than 10 observations) and hence
`leadershipScore = 91` rather than 100. -/
theorem grader_single_note_amended :
    (gradePerformanceStr (fun _ => 0) [⟨0, 60, 60, 26163/100⟩] [⟨60, 4, none, 0, ""⟩] 80
      ("4/4")).pitchScore = 100 ∧
    (gradePerformanceStr (fun _ => 0) [⟨0, 60, 60, 26163/100⟩] [⟨60, 4, none, 0, ""⟩] 80
      ("4/4")).rhythmScore = 100 ∧
    (gradePerformanceStr (fun _ => 0) [⟨0, 60, 60, 26163/100⟩] [⟨60, 4, none, 0, ""⟩] 80
      ("4/4")).stabilityScore = 70 ∧
    (gradePerformanceStr (fun _ => 0) [⟨0, 60, 60, 26163/100⟩] [⟨60, 4, none, 0, ""⟩] 80
      ("4/4")).leadershipScore = 91 ∧
    (gradePerformanceStr (fun _ => 0) [⟨0, 60, 60, 26163/100⟩] [⟨60, 4, none, 0, ""⟩] 80
      ("4/4")).diagnostics = ["Excellent accuracy! Pitch and timing are very solid."] ∧
    (gradePerformanceStr (fun _ => 0) [⟨0, 60, 60, 26163/100⟩] [⟨60, 4, none, 0, ""⟩] 80
      ("4/4")).summary.matchedNotes = 1 := by
  refine ⟨?_, ?_, ?_, ?_, ?_, ?_⟩ <;> decide

/-- Witness for `matchOne_window_closest_spec` on a one-element history that
matches a one-note window exactly. -/
theorem matchOne_window_closest_spec_witness :
    (matchOne [⟨0, 60, 60, 300⟩] ⟨0, 60, 0, 0, 3000, 0, ""⟩).matched = true ∧
    ∃ p ∈ windowCandidates [⟨0, 60, 60, 300⟩] ⟨0, 60, 0, 0, 3000, 0, ""⟩,
      |p.midi - (⟨0, 60, 0, 0, 3000, 0, ""⟩ : ExpectedNote).midi| < 2 ∧
      (matchOne [⟨0, 60, 60, 300⟩] ⟨0, 60, 0, 0, 3000, 0, ""⟩).detectedMidi
        = some p.midiRounded ∧
      (matchOne [⟨0, 60, 60, 300⟩] ⟨0, 60, 0, 0, 3000, 0, ""⟩).centsOff
        = jround ((p.midi - (⟨0, 60, 0, 0, 3000, 0, ""⟩ : ExpectedNote).midi) * 100) ∧
      (matchOne [⟨0, 60, 60, 300⟩] ⟨0, 60, 0, 0, 3000, 0, ""⟩).timingOffMs
        = jround (p.timestamp - (⟨0, 60, 0, 0, 3000, 0, ""⟩ : ExpectedNote).expectedStart) ∧
      ∀ q ∈ windowCandidates [⟨0, 60, 60, 300⟩] ⟨0, 60, 0, 0, 3000, 0, ""⟩,
        |p.midi - (⟨0, 60, 0, 0, 3000, 0, ""⟩ : ExpectedNote).midi|
          ≤ |q.midi - (⟨0, 60, 0, 0, 3000, 0, ""⟩ : ExpectedNote).midi| :=
  ⟨by decide,
   (matchOne_window_closest_spec [⟨0, 60, 60, 300⟩] ⟨0, 60, 0, 0, 3000, 0, ""⟩).2.2.1
     (by decide)⟩

/-! ## Claim theorems: the gate -/

/-- C3 counterexample.  With `voiceThreshold = -40` and
`silenceThreshold = -50`, after the frame sequence `[-39, -39, -45, -39]` the
gate is open, although the sequence contains no 3 consecutive frames above the
voice threshold (the third frame, `-45`, is not above it): a frame in the dead
zone between the thresholds leaves the above-counter untouched, so "opens
exactly when 3 consecutive frames exceed voiceThreshold" is false of the code. -/
theorem gate_hysteresis_counterexample :
    (gateRun (-40) (-50) ⟨0, 0, false⟩ [-39, -39, -45, -39]).gateOpen = true ∧
    ¬ ((-40 : ℚ) < -45) := by
  constructor <;> decide

/-- C3 amended.  Three consecutive frames above `voiceThreshold` always open
the gate and five consecutive frames below `silenceThreshold` always close it;
a frame in the dead zone `[silenceThreshold, voiceThreshold]` (in particular a
single interrupting frame that is below `voiceThreshold` but not below
`silenceThreshold`) changes neither counter nor the gate.  Unlike the claim's
"exactly", the above-counter survives dead-zone frames (it is reset only by
frames below `silenceThreshold`), so the gate can also open on non-consecutive
above-frames. -/
theorem gate_hysteresis_amended (v s : ℚ) (hvs : s ≤ v) :
    (∀ (st : GateState) (x : ℚ), s ≤ x → x ≤ v → gateStep v s st x = st) ∧
    (∀ (st : GateState) (x1 x2 x3 : ℚ), v < x1 → v < x2 → v < x3 →
      (gateRun v s st [x1, x2, x3]).gateOpen = true) ∧
    (∀ (st : GateState) (x1 x2 x3 x4 x5 : ℚ),
      x1 < s → x2 < s → x3 < s → x4 < s → x5 < s →
      (gateRun v s st [x1, x2, x3, x4, x5]).gateOpen = false) := by
  refine ⟨?_, ?_, ?_⟩
  · intro st x hx1 hx2
    unfold gateStep
    rw [if_neg (not_lt.mpr hx2), if_neg (not_lt.mpr hx1)]
  · intro st x1 x2 x3 h1 h2 h3
    simp only [gateRun, List.foldl_cons, List.foldl_nil, gateStep, if_pos h1, if_pos h2,
      if_pos h3]
    rw [if_pos (by omega)]
  · intro st x1 x2 x3 x4 x5 h1 h2 h3 h4 h5
    have n1 : ¬ v < x1 := not_lt.mpr (le_of_lt (lt_of_lt_of_le h1 hvs))
    have n2 : ¬ v < x2 := not_lt.mpr (le_of_lt (lt_of_lt_of_le h2 hvs))
    have n3 : ¬ v < x3 := not_lt.mpr (le_of_lt (lt_of_lt_of_le h3 hvs))
    have n4 : ¬ v < x4 := not_lt.mpr (le_of_lt (lt_of_lt_of_le h4 hvs))
    have n5 : ¬ v < x5 := not_lt.mpr (le_of_lt (lt_of_lt_of_le h5 hvs))
    simp only [gateRun, List.foldl_cons, List.foldl_nil, gateStep, if_neg n1, if_neg n2,
      if_neg n3, if_neg n4, if_neg n5, if_pos h1, if_pos h2, if_pos h3, if_pos h4, if_pos h5]
    rw [if_pos (by omega)]

/-- Witness for `gate_hysteresis_amended` at the calibrated default thresholds
`voice = -40`, `silence = -50`. -/
theorem gate_hysteresis_amended_witness :
    ((-50 : ℚ) ≤ -40) ∧
    gateStep (-40) (-50) ⟨2, 0, false⟩ (-45) = ⟨2, 0, false⟩ ∧
    (gateRun (-40) (-50) ⟨0, 0, false⟩ [-39, -39, -39]).gateOpen = true ∧
    (gateRun (-40) (-50) ⟨0, 0, true⟩ [-51, -51, -51, -51, -51]).gateOpen = false :=
  ⟨by norm_num,
   (gate_hysteresis_amended (-40) (-50) (by norm_num)).1 ⟨2, 0, false⟩ (-45) (by norm_num)
     (by norm_num),
   (gate_hysteresis_amended (-40) (-50) (by norm_num)).2.1 ⟨0, 0, false⟩ (-39) (-39) (-39)
     (by norm_num) (by norm_num) (by norm_num),
   (gate_hysteresis_amended (-40) (-50) (by norm_num)).2.2 ⟨0, 0, true⟩ (-51) (-51) (-51)
     (-51) (-51) (by norm_num) (by norm_num) (by norm_num) (by norm_num) (by norm_num)⟩

/-! ## Claim theorems: the YIN estimator -/

/-- C6.  Every result of `yinDetect` is the sentinel `(-1, 0)` or a frequency
inside `[minFreq, maxFreq]`: the no-candidate path returns the sentinel and
every other path goes through the final range check. -/
theorem yin_result_sentinel_or_in_range (cfg : YinConfig) (buf : List ℚ) :
    yinDetect cfg buf = (-1, 0) ∨
      (cfg.minFreq ≤ (yinDetect cfg buf).1 ∧ (yinDetect cfg buf).1 ≤ cfg.maxFreq) := by
  have hrc : ∀ f c : ℚ, rangeCheck cfg f c = (-1, 0) ∨
      (cfg.minFreq ≤ (rangeCheck cfg f c).1 ∧ (rangeCheck cfg f c).1 ≤ cfg.maxFreq) := by
    intro f c
    unfold rangeCheck
    split_ifs with h
    · exact Or.inl rfl
    · push_neg at h
      exact Or.inr ⟨h.1, h.2⟩
  cases hf : findCandidate buf (buf.length / 2) cfg with
  | none => exact Or.inl (by simp [yinDetect, hf])
  | some t0 =>
    have hy : yinDetect cfg buf =
        rangeCheck cfg
          (cfg.sampleRate /
            refineTau buf (buf.length / 2) (walkToMin buf (buf.length / 2) (buf.length / 2) t0))
          (1 - (cmnd buf (buf.length / 2)
            (walkToMin buf (buf.length / 2) (buf.length / 2) t0)).getD 0) := by
      simp [yinDetect, hf]
    rw [hy]
    exact hrc _ _

/-- `getD` of an all-zero list is 0 at every index. -/
lemma all_zero_getD (l : List ℚ) (h : ∀ x ∈ l, x = 0) (i : ℕ) : l.getD i 0 = 0 := by
  induction l generalizing i with
  | nil => simp
  | cons a t ih =>
    cases i with
    | zero => simpa using h a (by simp)
    | succ j =>
      simp only [List.getD_cons_succ]
      exact ih (fun x hx => h x (by simp [hx])) j

/-- C2.  On an all-zero frame `yinDetect` returns the no-pitch sentinel: every
difference value is 0, the running sum stays 0, every normalized entry is the
modelled NaN, no comparison against the threshold succeeds, and the result is
the finite pair `(-1, 0)` — no NaN or Infinity reaches the output. -/
theorem yin_silent_frame_sentinel (cfg : YinConfig) (buf : List ℚ)
    (hz : ∀ x ∈ buf, x = 0) : yinDetect cfg buf = (-1, 0) := by
  have hd : ∀ tau, diffAt buf (buf.length / 2) tau = 0 := by
    intro tau
    unfold diffAt
    apply List.sum_eq_zero
    intro x hx
    simp only [List.mem_map] at hx
    obtain ⟨i, _, rfl⟩ := hx
    simp only [sampleAt]
    rw [all_zero_getD buf hz, all_zero_getD buf hz]
    norm_num
  have hrs : ∀ tau, runningSum buf (buf.length / 2) tau = 0 := by
    intro tau
    unfold runningSum
    apply List.sum_eq_zero
    intro x hx
    simp only [List.mem_map] at hx
    obtain ⟨t, _, rfl⟩ := hx
    exact hd _
  have hc : ∀ tau, tau ≠ 0 → cmnd buf (buf.length / 2) tau = none := by
    intro tau ht
    unfold cmnd
    rw [if_neg ht, if_pos (hrs tau)]
  have hfind : findCandidate buf (buf.length / 2) cfg = none := by
    simp only [findCandidate]
    apply List.find?_eq_none.mpr
    intro t htmem
    have hstart : 2 ≤ max 2 (⌊cfg.sampleRate / cfg.maxFreq⌋).toNat := le_max_left _ _
    have ht2 : 2 ≤ t := le_trans hstart (List.mem_range'_1.mp htmem).1
    simp [nanLtQ, hc t (by omega)]
  simp [yinDetect, hfind]

/-- Witness for `yin_silent_frame_sentinel` on an 8-sample zero frame at the
worklet's default configuration. -/
theorem yin_silent_frame_sentinel_witness :
    (∀ x ∈ List.replicate 8 (0 : ℚ), x = 0) ∧
    yinDetect defaultYinConfig (List.replicate 8 0) = (-1, 0) :=
  ⟨by decide, yin_silent_frame_sentinel defaultYinConfig (List.replicate 8 0) (by decide)⟩

/-! ## Claim theorems: the smoothing pipeline -/

/-- C7.  A frame whose raw MIDI deviates from the outlier-buffer median by more
than 200 cents, while the suspect has not yet repeated for 2 consecutive
frames, is discarded: nothing is emitted, the pitch history and the previous
output stand, and the smoothing buffers are untouched. -/
theorem suspect_frame_discarded (f2m m2f : ℚ → ℚ) (st : EngineState) (d : PitchInput)
    (hfreq : 0 < d.frequency) (hgate : d.gateOpen = true)
    (hlen : 3 ≤ st.outlierBuffer.length)
    (hdev : 200 < |f2m d.frequency - jsMedian st.outlierBuffer| * 100)
    (hsf : (suspectUpdate st.suspectPitch st.suspectFrames (f2m d.frequency)).2 < 2) :
    (processPitchData f2m m2f st d).2 = none ∧
    (processPitchData f2m m2f st d).1.pitchHistory = st.pitchHistory ∧
    (processPitchData f2m m2f st d).1.lastOutput = st.lastOutput ∧
    (processPitchData f2m m2f st d).1.outlierBuffer = st.outlierBuffer ∧
    (processPitchData f2m m2f st d).1.medianBuffer = st.medianBuffer ∧
    (processPitchData f2m m2f st d).1.smoothedMidi = st.smoothedMidi := by
  have hng : ¬ (d.frequency ≤ 0 ∨ d.gateOpen = false) := by
    rintro (hle | hg)
    · exact absurd hfreq (not_lt.mpr hle)
    · rw [hgate] at hg
      cases hg
  simp only [processPitchData]
  rw [if_neg hng, if_pos ⟨hlen, hdev⟩, if_pos hsf]
  exact ⟨rfl, rfl, rfl, rfl, rfl, rfl⟩

/-- Witness for `suspect_frame_discarded`: a fresh 2100-cent outlier against a
buffer of three A3 frames is dropped. -/
theorem suspect_frame_discarded_witness :
    (0 : ℚ) < 880 ∧
    3 ≤ ([60, 60, 60] : List ℚ).length ∧
    200 < |(81 : ℚ) - jsMedian [60, 60, 60]| * 100 ∧
    (suspectUpdate none 0 (81 : ℚ)).2 < 2 ∧
    ((processPitchData (fun _ => 81) (fun _ => 0)
        ⟨25/100, [60, 60, 60], 0, none, [], none, none, -100, none, 0, 0, none, none, []⟩
        ⟨880, 9/10, 1/10, -20, true, 0⟩).2 = none ∧
      (processPitchData (fun _ => 81) (fun _ => 0)
        ⟨25/100, [60, 60, 60], 0, none, [], none, none, -100, none, 0, 0, none, none, []⟩
        ⟨880, 9/10, 1/10, -20, true, 0⟩).1.pitchHistory = []) := by
  refine ⟨by norm_num, by decide, by decide, by decide, ?_, ?_⟩
  · exact (suspect_frame_discarded (fun _ => 81) (fun _ => 0)
      ⟨25/100, [60, 60, 60], 0, none, [], none, none, -100, none, 0, 0, none, none, []⟩
      ⟨880, 9/10, 1/10, -20, true, 0⟩ (by norm_num) rfl (by decide) (by decide)
      (by decide)).1
  · exact (suspect_frame_discarded (fun _ => 81) (fun _ => 0)
      ⟨25/100, [60, 60, 60], 0, none, [], none, none, -100, none, 0, 0, none, none, []⟩
      ⟨880, 9/10, 1/10, -20, true, 0⟩ (by norm_num) rfl (by decide) (by decide)
      (by decide)).2.1

/-- The rounded distance from a value to its nearest integer, in hundredths,
lies in `[-50, 50]`. -/
lemma musicalCents_bound (q : ℚ) : -50 ≤ musicalCents q ∧ musicalCents q ≤ 50 := by
  unfold musicalCents jround
  have h1 : (⌊q + 1/2⌋ : ℚ) ≤ q + 1/2 := Int.floor_le _
  have h2 : q + 1/2 < ⌊q + 1/2⌋ + 1 := Int.lt_floor_add_one _
  constructor
  · rw [Int.le_floor]
    push_cast
    linarith
  · have h3 : ⌊(q - (⌊q + 1/2⌋ : ℚ)) * 100 + 1/2⌋ < 51 := by
      rw [Int.floor_lt]
      push_cast
      linarith
    omega

/-- The observation built by the main path always carries `musicalCents` of
its smoothed MIDI value. -/
lemma mainEmit_cents (m2f : ℚ → ℚ) (st : EngineState) (d : PitchInput) (rawMidi : ℚ)
    (sp : Option ℚ) (sf : ℕ) :
    ∃ q, ((mainEmit m2f st d rawMidi sp sf).2).cents = musicalCents q ∧
      ((mainEmit m2f st d rawMidi sp sf).2).midi = some q := by
  exact ⟨_, rfl, rfl⟩

/-- The three possible emissions of `processPitchData`: the null observation,
nothing (discarded suspect), or a main-path observation. -/
lemma processPitchData_snd_cases (f2m m2f : ℚ → ℚ) (st : EngineState) (d : PitchInput) :
    (processPitchData f2m m2f st d).2 = some (nullObs d) ∨
    (processPitchData f2m m2f st d).2 = none ∨
    ∃ rawMidi sp sf,
      (processPitchData f2m m2f st d).2 = some ((mainEmit m2f st d rawMidi sp sf).2) := by
  simp only [processPitchData]
  split_ifs with h1 h2 h3
  · exact Or.inl rfl
  · exact Or.inr (Or.inl rfl)
  · exact Or.inr (Or.inr ⟨_, _, _, rfl⟩)
  · exact Or.inr (Or.inr ⟨_, _, _, rfl⟩)

/-- C10.  Every non-null observation emitted by the pipeline has its `cents`
field in `[-50, 50]`, because it is the rounded distance in cents from the
smoothed MIDI value to its nearest (JS-rounded) integer note. -/
theorem emitted_cents_in_range (f2m m2f : ℚ → ℚ) (st : EngineState) (d : PitchInput)
    (o : Obs) (ho : (processPitchData f2m m2f st d).2 = some o) (hm : o.midi ≠ none) :
    -50 ≤ o.cents ∧ o.cents ≤ 50 := by
  rcases processPitchData_snd_cases f2m m2f st d with hcase | hcase | ⟨raw, sp, sf, hcase⟩
  · rw [hcase] at ho
    obtain rfl := Option.some.inj ho
    exact absurd rfl hm
  · rw [hcase] at ho
    cases ho
  · rw [hcase] at ho
    obtain rfl := Option.some.inj ho
    obtain ⟨q, hq, -⟩ := mainEmit_cents m2f st d raw sp sf
    rw [hq]
    exact musicalCents_bound q

/-- Witness for `emitted_cents_in_range`: from the initial state, an accepted
frame (modelled conversion value 69) emits an observation with cents 0. -/
theorem emitted_cents_in_range_witness :
    ((processPitchData (fun _ => 69) (fun _ => 440) (engineInit ("standard"))
        ⟨440, 9/10, 1/10, -20, true, 0⟩).2 =
      some ((processPitchData (fun _ => 69) (fun _ => 440) (engineInit ("standard"))
        ⟨440, 9/10, 1/10, -20, true, 0⟩).2.getD (nullObs ⟨440, 9/10, 1/10, -20, true, 0⟩)) ∧
      ((processPitchData (fun _ => 69) (fun _ => 440) (engineInit ("standard"))
        ⟨440, 9/10, 1/10, -20, true, 0⟩).2.getD
          (nullObs ⟨440, 9/10, 1/10, -20, true, 0⟩)).midi ≠ none) ∧
    (-50 ≤ ((processPitchData (fun _ => 69) (fun _ => 440) (engineInit ("standard"))
        ⟨440, 9/10, 1/10, -20, true, 0⟩).2.getD
          (nullObs ⟨440, 9/10, 1/10, -20, true, 0⟩)).cents ∧
      ((processPitchData (fun _ => 69) (fun _ => 440) (engineInit ("standard"))
        ⟨440, 9/10, 1/10, -20, true, 0⟩).2.getD
          (nullObs ⟨440, 9/10, 1/10, -20, true, 0⟩)).cents ≤ 50) :=
  ⟨⟨by decide, by decide⟩,
   emitted_cents_in_range (fun _ => 69) (fun _ => 440) (engineInit ("standard"))
     ⟨440, 9/10, 1/10, -20, true, 0⟩
     ((processPitchData (fun _ => 69) (fun _ => 440) (engineInit ("standard"))
        ⟨440, 9/10, 1/10, -20, true, 0⟩).2.getD (nullObs ⟨440, 9/10, 1/10, -20, true, 0⟩))
     (by decide) (by decide)⟩

/-! ## Claim theorems: frequency/MIDI round-trip -/

/-- C9.  For every positive reference pitch and every frequency in the
supported range `[65, 1100]` Hz, converting to continuous MIDI and back
returns the frequency exactly (over `ℝ`, the idealization of
"up to floating-point precision"). -/
theorem freq_midi_roundtrip (ref f : ℝ) (href : 0 < ref) (h1 : 65 ≤ f) (_h2 : f ≤ 1100) :
    midiToFreq ref (freqToMidi ref f) = f := by
  have hf : 0 < f := lt_of_lt_of_le (by norm_num) h1
  unfold midiToFreq freqToMidi
  have he : (12 * Real.logb 2 (f / ref) + 69 - 69) / 12 = Real.logb 2 (f / ref) := by ring
  rw [he, Real.rpow_logb (by norm_num) (by norm_num) (div_pos hf href)]
  field_simp

/-- Witness for `freq_midi_roundtrip` at A4 = 440 Hz. -/
theorem freq_midi_roundtrip_witness :
    (0 : ℝ) < 440 ∧ (65 : ℝ) ≤ 440 ∧ (440 : ℝ) ≤ 1100 ∧
    midiToFreq 440 (freqToMidi 440 440) = 440 :=
  ⟨by norm_num, by norm_num, by norm_num,
   freq_midi_roundtrip 440 440 (by norm_num) (by norm_num) (by norm_num)⟩

end
